import Mathlib

/-
  Shallow embedding of the rf_bridge RF433 firmware
  (src/avr/rf_bridge_common.c, with ovf_sub also in the host tool).

  Machine integers (uint8_t / uint16_t) are modelled as Nat with explicit
  `% 256` at the points where the C code stores into a uint8_t or where a
  wider value is passed to a uint8_t parameter.  Output produced with
  printf / uart_putchar is modelled as a List Nat of the emitted bytes.
-/

namespace RfBridge

/-- Absolute-value subtraction, `abs_sub` in the source (uint8_t args). -/
def abs_sub (v1 v2 : Nat) : Nat :=
  if v1 > v2 then v1 - v2 else v2 - v1

/-- Overflow subtraction for the cursors, `ovf_sub` in the source:
`v1 > v2 ? 255 - v1 + v2 : v2 - v1`. -/
def ovf_sub (v1 v2 : Nat) : Nat :=
  if v1 > v2 then 255 - v1 + v2 else v2 - v1

/-- MAX_TICKS_PER_PHASE in the source. -/
def MAX_TICKS_PER_PHASE : Nat := 255

/-- The guarded increment of `pulse[current_pulse][b]` performed on every
sampler tick: `if (pulse[current_pulse][b] < MAX_TICKS_PER_PHASE)
pulse[current_pulse][b]++;`. -/
def phaseInc (v : Nat) : Nat :=
  if v < MAX_TICKS_PER_PHASE then v + 1 else v

/-- State touched by the TIMER0_COMPA_vect sampler ISR: the pulse ring
(indexed mod 256), the write cursor `current_pulse`, and the previous pin
level `bit`. -/
structure SamplerState where
  pulse : Nat → Nat × Nat
  current : Nat
  bit : Bool

/-- One invocation of TIMER0_COMPA_vect with pin level `b`: increment the
phase counter for level `b` (guarded by MAX_TICKS_PER_PHASE), then on a
rising edge advance `current_pulse` when either phase exceeded 20 ticks
and clear the (possibly new) current slot. -/
def samplerTick (s : SamplerState) (b : Bool) : SamplerState :=
  let idx := s.current % 256
  let pv := s.pulse idx
  let pv1 : Nat × Nat := if b then (pv.1, phaseInc pv.2) else (phaseInc pv.1, pv.2)
  let pulse1 : Nat → Nat × Nat := fun i => if i = idx then pv1 else s.pulse i
  if s.bit = false ∧ b = true then
    let cur2 := if pv1.1 > 20 ∨ pv1.2 > 20 then (s.current + 1) % 256 else s.current
    let idx2 := cur2 % 256
    { pulse := fun i => if i = idx2 then (0, 0) else pulse1 i
      current := cur2
      bit := b }
  else
    { pulse := pulse1, current := s.current, bit := b }

/-- Decoder-side emission state: `chk`, `byte`, `bcount` (all uint8_t) and
the bytes already printed as hex pairs on the payload. -/
structure EmitState where
  chk : Nat
  byte : Nat
  bcount : Nat
  out : List Nat
deriving DecidableEq

/-- The state the sync searcher installs before handing to a decoder:
`chk = 0x55; bcount = 0; byte = 0;` and nothing printed yet. -/
def emitInit : EmitState :=
  { chk := 0x55, byte := 0, bcount := 0, out := [] }

/-- The `stuffbit` routine: stuff bit `b` into the 8-bit accumulator, and
when the byte is full (or `last` is nonzero) add it to `chk` and print it
as a hex pair. -/
def stuffbit (b last : Nat) (s : EmitState) : EmitState :=
  let bn := s.bcount % 8
  let byte1 := (s.byte ||| (b <<< (7 - bn))) % 256
  let bcount1 := (s.bcount + 1) % 256
  if last ≠ 0 ∨ bn = 7 then
    { chk := (s.chk + byte1) % 256, byte := 0, bcount := bcount1
      out := s.out ++ [byte1] }
  else
    { s with byte := byte1, bcount := bcount1 }

/-- One pulse printed by the raw dumper `cr_decode_pulses`:
`printf("%02x%02x", pulse[pi][1], pulse[pi][0]); chk += p1 + p0; bcount++;`. -/
def rawPulseEmit (p1 p0 : Nat) (s : EmitState) : EmitState :=
  { chk := (s.chk + p1 % 256 + p0 % 256) % 256
    byte := s.byte
    bcount := (s.bcount + 1) % 256
    out := s.out ++ [p1 % 256, p0 % 256] }

/-- An emission event: either a decoder stuffing one bit, or the raw
dumper printing one pulse pair. -/
inductive EmitEv where
  | bit : Nat → Nat → EmitEv
  | raw : Nat → Nat → EmitEv
deriving DecidableEq

/-- Apply one emission event. -/
def emitEvApply (s : EmitState) (e : EmitEv) : EmitState :=
  match e with
  | .bit b last => stuffbit b last s
  | .raw p1 p0 => rawPulseEmit p1 p0 s

/-- Run a sequence of emission events from the decoder-initial state. -/
def emitRun (evs : List EmitEv) : EmitState :=
  evs.foldl emitEvApply emitInit

/-- Lowercase hex digit character of a value below 16 (printf %x). -/
def hexDigitChar (d : Nat) : Nat :=
  if d < 10 then 48 + d else 87 + d

/-- Exactly two hex digits (printf `%02x` of a uint8_t value). -/
def hex2 (n : Nat) : List Nat :=
  let m := n % 256
  [hexDigitChar (m / 16), hexDigitChar (m % 16)]

/-- Unpadded hex digits (printf `%0x`: the zero flag without a width is a
no-op, so at least one digit, no padding).  All call sites pass a uint8_t
value, so two digits suffice. -/
def hexNoPad (n : Nat) : List Nat :=
  if n < 16 then [hexDigitChar n]
  else [hexDigitChar ((n / 16) % 16), hexDigitChar (n % 16)]

/-- Decimal digits of a value (printf `%d`).  All call sites pass a
uint8_t value, so three digits suffice. -/
def decRepr (n : Nat) : List Nat :=
  if n < 10 then [48 + n]
  else if n < 100 then [48 + n / 10, 48 + n % 10]
  else [48 + (n / 100) % 10, 48 + (n / 10) % 10, 48 + n % 10]

/-- The state_DecodeDone arm of the main loop: `chk += bcount;
chk += syncduration; if (bcount) printf("#%02x!%0x*%02x\n", bcount,
syncduration, chk);`. -/
def decodeDoneOutput (bcount syncduration chk : Nat) : List Nat :=
  let chk1 := (chk + bcount) % 256
  let chk2 := (chk1 + syncduration) % 256
  if bcount ≠ 0 then
    [35] ++ hex2 bcount ++ [33] ++ hexNoPad syncduration ++ [42] ++ hex2 chk2 ++ [10]
  else []

/-- Bit numbers of the two output-compare interrupt enable bits in TIMSK0
(ATmega TIMSK0 layout: TOIE0 = 0, OCIE0A = 1, OCIE0B = 2). -/
def OCIE0A : Nat := 1

/-- Bit number of the compare-B (transmit) interrupt enable. -/
def OCIE0B : Nat := 2

/-- `timer_mask = (1 << OCIE0A) | (1 << OCIE0B)` from the source. -/
def timer_mask : Nat := (1 <<< OCIE0A) ||| (1 <<< OCIE0B)

/-- Transceiver mode enumeration from the source. -/
inductive XcvrMode where
  | Idle
  | Receiving
  | StartTransmit
  | Transmitting
deriving DecidableEq

/-- State touched by the three transceiver transitions: the 8-bit TIMSK0
register, the mode, and the antenna pin. -/
structure XcvrState where
  timsk0 : Nat
  mode : XcvrMode
  antenna : Bool
deriving DecidableEq

/-- `disable_transceiver`: mode Idle, antenna low, both compare interrupt
enables cleared (`TIMSK0 &= ~timer_mask` on an 8-bit register). -/
def disable_transceiver (s : XcvrState) : XcvrState :=
  { timsk0 := s.timsk0 &&& (255 ^^^ timer_mask)
    mode := .Idle
    antenna := false }

/-- `enable_receiver`: no-op when only compare-A is armed; otherwise clear
both, drop the antenna pin, set mode Receiving and arm compare-A. -/
def enable_receiver (s : XcvrState) : XcvrState :=
  if s.timsk0 &&& timer_mask = (1 <<< OCIE0A) then s
  else
    { timsk0 := (s.timsk0 &&& (255 ^^^ timer_mask)) ||| (1 <<< OCIE0A)
      mode := .Receiving
      antenna := false }

/-- `enable_transmitter`: no-op when only compare-B is armed; otherwise
clear both, raise the antenna pin, set mode StartTransmit and arm
compare-B. -/
def enable_transmitter (s : XcvrState) : XcvrState :=
  if s.timsk0 &&& timer_mask = (1 <<< OCIE0B) then s
  else
    { timsk0 := (s.timsk0 &&& (255 ^^^ timer_mask)) ||| (1 <<< OCIE0B)
      mode := .StartTransmit
      antenna := true }

/-- One of the three transceiver transitions. -/
inductive XcvrOp where
  | recv
  | xmit
  | off
deriving DecidableEq

/-- Apply one transceiver transition. -/
def xcvrStep (s : XcvrState) (op : XcvrOp) : XcvrState :=
  match op with
  | .recv => enable_receiver s
  | .xmit => enable_transmitter s
  | .off => disable_transceiver s

/-- Reset state: TIMSK0 is 0 after hardware reset; `transceiver_mode` is
initialised to `mode_Receiving` in the source; antenna pin low. -/
def xcvrReset : XcvrState :=
  { timsk0 := 0, mode := .Receiving, antenna := false }

/-- Run a sequence of transceiver transitions from reset. -/
def xcvrRun (ops : List XcvrOp) : XcvrState :=
  ops.foldl xcvrStep xcvrReset

/-- At most one of the two compare interrupt enable bits is set: the
compare-A bit is clear or the compare-B bit is clear. -/
def atMostOneCompare (t : Nat) : Prop :=
  t &&& (1 <<< OCIE0A) = 0 ∨ t &&& (1 <<< OCIE0B) = 0

instance (t : Nat) : Decidable (atMostOneCompare t) := by
  unfold atMostOneCompare; infer_instance

/-- Firmware running states (`state_...` enum in the source). -/
inductive RunState where
  | SyncSearch
  | Decoding_ASK
  | Decoding_OOK
  | Decoding_Manchester
  | DecodeRawPulses
  | DecodeDone
  | ReceivingCommand
deriving DecidableEq

/-- Local state of the `cr_syncsearch` scan: `syncstart`, `syncduration`
(uint8_t, shared global), `synclen`, `manchester`. -/
structure SyncState where
  syncstart : Nat
  syncduration : Nat
  synclen : Nat
  manchester : Nat
deriving DecidableEq

/-- The cleared sync state: globals start at 0, and after a decode the
searcher does `synclen = manchester = syncduration = 0`. -/
def syncInit : SyncState :=
  { syncstart := 0, syncduration := 0, synclen := 0, manchester := 0 }

/-- Processing of one candidate pulse `(p0, p1)` at ring index `pi` in
`cr_syncsearch`.  `d = p0 + p1` is a uint16_t; `abs_sub` takes uint8_t
arguments so `d` is truncated mod 256 when passed to it; the store of `d`
into the uint8_t `syncduration` also truncates; the adaptive update
`syncduration += (d - syncduration) / 2` is int arithmetic truncated
toward zero, then stored into a uint8_t. -/
def syncStep (st : SyncState) (pi : Nat) (p : Nat × Nat) : SyncState :=
  let p0 := p.1
  let p1 := p.2
  let d0 := p0 + p1
  let norm : Nat × Nat × Nat :=
    if d0 > 0x70 then
      if abs_sub (p0 / 2) p1 < d0 / 8 then (p0 / 2, p1, p0 / 2 + p1)
      else if abs_sub p0 (p1 / 2) < d0 / 8 then (p0, p1 / 2, p0 + p1 / 2)
      else if abs_sub (d0 / 2) st.syncduration < d0 / 16 then
        (p0 / 2, p1 / 2, d0 / 2)
      else (p0, p1, d0)
    else (p0, p1, d0)
  let p0n := norm.1
  let p1n := norm.2.1
  let dn := norm.2.2
  if dn < 0x20 ∨ abs_sub (dn % 256) st.syncduration > 8 then
    { syncstart := pi, syncduration := dn % 256, synclen := 0, manchester := 0 }
  else
    { syncstart := st.syncstart
      syncduration :=
        if st.syncduration ≤ dn then
          (st.syncduration + (dn - st.syncduration) / 2) % 256
        else
          (st.syncduration - (st.syncduration - dn) / 2) % 256
      synclen := (st.synclen + 1) % 256
      manchester :=
        if abs_sub p1n p0n < dn / 8 then (st.manchester + 1) % 256
        else st.manchester }

/-- The searcher's buffer walk: process pulses in order (ring index `pi`
advancing mod 256) while `synclen < SYNC_LEN` (8). -/
def runSync (st : SyncState) (pi : Nat) : List (Nat × Nat) → SyncState
  | [] => st
  | p :: rest =>
    if st.synclen < 8 then runSync (syncStep st pi p) ((pi + 1) % 256) rest
    else st

/-- Decoder selection once `synclen == SYNC_LEN` (lines 319-326):
raw-pulse display wins, then OOK if `syncduration > 0x80`, then
Manchester if `manchester > 4`, else ASK. -/
def chooseNewstate (displayPulses : Bool) (st : SyncState) : RunState :=
  if displayPulses then .DecodeRawPulses
  else if st.syncduration > 0x80 then .Decoding_OOK
  else if st.manchester > 4 then .Decoding_Manchester
  else .Decoding_ASK

/-- Outcome of a sync scan: a decoder is chosen only when the scan ended
with `synclen == SYNC_LEN` (8). -/
def syncOutcome (displayPulses : Bool) (st : SyncState) : Option RunState :=
  if st.synclen = 8 then some (chooseNewstate displayPulses st) else none

/-- `uart_recv`: next byte of the inbound stream, 0xff on timeout
(modelled as exhaustion of the input list). -/
def uartRecv : List Nat → Nat × List Nat
  | [] => (255, [])
  | b :: r => (b, r)

/-- One character of `getsbyte`: accepts `0`-`9`, `a`-`f`, and `A` up to
but excluding `F` (the source comparison is `s >= 'A' && s < 'F'`). -/
def decodeHexChar (s : Nat) : Option Nat :=
  if 48 ≤ s ∧ s ≤ 57 then some (s - 48)
  else if 97 ≤ s ∧ s ≤ 102 then some (s - 97 + 10)
  else if 65 ≤ s ∧ s < 70 then some (s - 65 + 10)
  else none

/-- `getsbyte`: read two hex characters; result is `(ret, res, rest)`
where `ret = 0` on success (with `res` the decoded byte) and otherwise
`ret` is the offending character (0xff on timeout), `res` the partially
shifted accumulator. -/
def getsbyte (input : List Nat) : Nat × Nat × List Nat :=
  let (s1, r1) := uartRecv input
  match decodeHexChar s1 with
  | none => (s1, 0, r1)
  | some v1 =>
    let (s2, r2) := uartRecv r1
    match decodeHexChar s2 with
    | none => (s2, (v1 <<< 4) % 256, r2)
    | some v2 => (0, ((v1 <<< 4) ||| v2) % 256, r2)

/-- The record of one `transmit_message` call: it writes the sentinel
`(255, 0)` at `ring[bcount]`, sets `msg_end = bcount + 1` (uint8_t) and
`msg_start = 0`, and transmits only when `msg_end > 16`. -/
structure TxCall where
  bcount : Nat
  msgEnd : Nat
  msgStart : Nat
  attempted : Bool
deriving DecidableEq

/-- `transmit_message` from the source, as a function of the current
`bcount`. -/
def transmit_message (bcount : Nat) : TxCall :=
  let msgEnd := (bcount + 1) % 256
  { bcount := bcount, msgEnd := msgEnd, msgStart := 0
    attempted := decide (16 < msgEnd) }

/-- Observable result of one `cr_receive_cmd` line: bytes printed,
`transmit_message` calls, changes to the display flags, and whether the
receiver is re-enabled at the end (the `again:` epilogue). -/
structure CmdResult where
  out : List Nat
  tx : List TxCall
  displayPulses : Option Bool
  displayStacks : Option Bool
  receiverOn : Bool
deriving DecidableEq

/-- `skipline`: consume bytes while the current one is `>= ' '` and not
the 0xff timeout marker; returns the unconsumed rest. -/
def skipline (b : Nat) (input : List Nat) : List Nat :=
  if 32 ≤ b ∧ b ≠ 255 then
    match input with
    | [] => []
    | c :: r => skipline c r
  else input

/-- The common epilogue: run `skipline`, then
`if (err) printf("!%d\n", err); else if (state) printf("*OK\n");`, then
re-enable the receiver. -/
def finishLine (err state b : Nat) (input : List Nat) (tx : List TxCall)
    (dp ds : Option Bool) : CmdResult :=
  let _rest := skipline b input
  { out := if err ≠ 0 then [33] ++ decRepr err ++ [10]
           else if state ≠ 0 then [42, 79, 75, 10]
           else []
    tx := tx
    displayPulses := dp
    displayStacks := ds
    receiverOn := true }

/-- The token loop of an `M` command (`do { b = uart_recv(); newkey:
switch (b) ... } while (1)`), with `b` the character being dispatched.
The `:` payload case re-enters itself after each decoded hex pair (for
type 'A' each payload byte expands to 8 pulses, `bcount += 8`); `!` and
`#` read a hex argument into `syncduration` / `bcount`; `*` compares the
claim with `chk` and either triggers `transmit_message` or records the
`'*'` error.  Fuel bounds the recursion; every recursive call consumes
input, so `input.length + 1` fuel never runs out. -/
def cmdLoop : Nat → Nat → Nat → Nat → Nat → Nat → List Nat → List TxCall → CmdResult
  | 0, _, _, _, _, _, _, tx =>
    { out := [0], tx := tx, displayPulses := none, displayStacks := none
      receiverOn := true }
  | fuel + 1, mt, sd, bc, chk, b, input, tx =>
    if b = 58 then
      let (ret, byte, r) := getsbyte input
      if ret ≠ 0 then cmdLoop fuel mt sd bc chk ret r tx
      else
        let chk1 := (chk + byte) % 256
        let bc1 := if mt = 65 then (bc + 8) % 256 else bc
        cmdLoop fuel mt sd bc1 chk1 58 r tx
    else if b = 42 then
      let (ret, v, r) := getsbyte input
      if ret ≠ 0 then finishLine 0 0 ret r tx none none
      else if v = chk then
        finishLine 0 1 v r (tx ++ [transmit_message bc]) none none
      else finishLine 42 0 v r tx none none
    else if b = 33 then
      let (ret, v, r) := getsbyte input
      if ret ≠ 0 then finishLine 0 0 ret r tx none none
      else
        let (b2, r2) := uartRecv r
        cmdLoop fuel mt v bc ((chk + v) % 256) b2 r2 tx
    else if b = 35 then
      let (ret, v, r) := getsbyte input
      if ret ≠ 0 then finishLine 0 0 ret r tx none none
      else
        let (b2, r2) := uartRecv r
        cmdLoop fuel mt sd v ((chk + v) % 256) b2 r2 tx
    else finishLine b 0 b input tx none none

/-- `recv_match_string_P`: match further input against the tail of a
pattern whose first character is `b`; returns the last compared byte and
the unconsumed input. -/
def recvMatch (b : Nat) : List Nat → List Nat → Nat × List Nat
  | [], input => (b, input)
  | p :: rest, input =>
    if b = p then
      match rest with
      | [] => (b, input)
      | _ :: _ =>
        let (b1, r1) := uartRecv input
        recvMatch b1 rest r1
    else (b, input)

/-- One outer iteration of `cr_receive_cmd` on one inbound line.  `sd0`
is the value the global `syncduration` holds on entry (kept for type
'P').  Dispatch on the first byte: `M` starts the token loop with
`bcount = 0`, `chk = 0x55` and the type-seeded `syncduration`; `PULSE`,
`DEMOD` and `STACK` set their flags; anything else falls through to
`skipline` with no error and no `*OK`. -/
def receiveCmd (sd0 : Nat) (input : List Nat) : CmdResult :=
  let (b, r) := uartRecv input
  if b = 255 then
    { out := [], tx := [], displayPulses := none, displayStacks := none
      receiverOn := true }
  else if b = 77 then
    let (mt, r2) := uartRecv r
    if mt = 255 then
      { out := [], tx := [], displayPulses := none, displayStacks := none
        receiverOn := true }
    else if mt = 65 ∨ mt = 77 ∨ mt = 80 then
      let sd := if mt = 65 then 0x63 else if mt = 77 then 0x40 else sd0
      let (b3, r3) := uartRecv r2
      cmdLoop (r3.length + 1) mt sd 0 0x55 b3 r3 []
    else finishLine 77 0 77 r2 [] none none
  else if b = 80 then
    let (bm, rm) := recvMatch 80 [80, 85, 76, 83, 69, 10] r
    if bm = 10 then finishLine 0 1 bm rm [] (some true) none
    else finishLine bm 0 bm rm [] none none
  else if b = 68 then
    let (bm, rm) := recvMatch 68 [68, 69, 77, 79, 68, 10] r
    if bm = 10 then finishLine 0 1 bm rm [] (some false) none
    else finishLine bm 0 bm rm [] none none
  else if b = 83 then
    let (bm, rm) := recvMatch 83 [83, 84, 65, 67, 75, 10] r
    if bm = 10 then finishLine 0 1 bm rm [] none (some true)
    else finishLine bm 0 bm rm [] none none
  else finishLine 0 0 b r [] none none

/- ------------------------------------------------------------------ -/
/- Theorems                                                           -/
/- ------------------------------------------------------------------ -/

theorem emit_step_chk (s : EmitState) (e : EmitEv)
    (h : s.chk = (0x55 + s.out.sum) % 256) :
    (emitEvApply s e).chk = (0x55 + (emitEvApply s e).out.sum) % 256 := by
  cases e with
  | bit b last =>
    simp only [emitEvApply, stuffbit]
    split
    · simp only [List.sum_append, List.sum_cons, List.sum_nil]
      omega
    · simpa using h
  | raw p1 p0 =>
    simp only [emitEvApply, rawPulseEmit, List.sum_append, List.sum_cons,
      List.sum_nil]
    omega

theorem emit_chk_invariant (evs : List EmitEv) :
    (emitRun evs).chk = (0x55 + (emitRun evs).out.sum) % 256 := by
  have main : ∀ (l : List EmitEv) (s : EmitState),
      s.chk = (0x55 + s.out.sum) % 256 →
      (List.foldl emitEvApply s l).chk =
        (0x55 + (List.foldl emitEvApply s l).out.sum) % 256 := by
    intro l
    induction l with
    | nil => intro s h; exact h
    | cons e l ih => intro s h; exact ih _ (emit_step_chk s e h)
  exact main evs emitInit (by decide)

/-- C1: for every message line emitted through `stuffbit` and the raw
dumper (types MA, MO, MM, MP), the checksum printed after the `*` in the
trailer is `(0x55 + sum of the printed payload bytes + bit_count +
sync_duration) mod 256`, where the payload bytes are exactly the hex
bytes printed between `:` and `#`. -/
theorem checksum_law (evs : List EmitEv) (sd : Nat)
    (hb : (emitRun evs).bcount ≠ 0) :
    decodeDoneOutput (emitRun evs).bcount sd (emitRun evs).chk =
      [35] ++ hex2 (emitRun evs).bcount ++ [33] ++ hexNoPad sd ++ [42] ++
        hex2 ((0x55 + (emitRun evs).out.sum + (emitRun evs).bcount + sd) % 256) ++
        [10] := by
  have h := emit_chk_invariant evs
  have hv : (((emitRun evs).chk + (emitRun evs).bcount) % 256 + sd) % 256 =
      (0x55 + (emitRun evs).out.sum + (emitRun evs).bcount + sd) % 256 := by
    omega
  simp only [decodeDoneOutput, hb, ne_eq, not_false_eq_true, if_true, hv,
    ite_true]

/-- Witness for C1 at a concrete one-bit emission and sync_duration 0x30. -/
theorem checksum_law_witness :
    decodeDoneOutput (emitRun [.bit 1 1]).bcount 48 (emitRun [.bit 1 1]).chk =
      [35] ++ hex2 (emitRun [.bit 1 1]).bcount ++ [33] ++ hexNoPad 48 ++ [42] ++
        hex2 ((0x55 + (emitRun [.bit 1 1]).out.sum + (emitRun [.bit 1 1]).bcount
          + 48) % 256) ++ [10] :=
  checksum_law [.bit 1 1] 48 (by decide)

/-- C3 counterexample: `ovf_sub 1 0` is 254, while `(0 - 1) mod 256` is
255, so `ovf_sub` is not the modular difference. -/
theorem ovf_sub_counterexample :
    ovf_sub 1 0 = 254 ∧ ((0 - 1 : Int) % 256 = 255) ∧
    ((ovf_sub 1 0 : Int) ≠ (0 - 1 : Int) % 256) := by
  decide

/-- C3 amended: for 8-bit inputs, `ovf_sub a b` equals `(b - a) mod 256`
when `a ≤ b`, and is one less than `(b - a) mod 256` when `a > b` (the
source computes `255 - a + b` rather than `256 - a + b`). -/
theorem ovf_sub_amended (v1 v2 : Nat) (h1 : v1 < 256) (h2 : v2 < 256) :
    (v1 ≤ v2 → (ovf_sub v1 v2 : Int) = ((v2 : Int) - (v1 : Int)) % 256) ∧
    (v2 < v1 → (ovf_sub v1 v2 : Int) =
      ((v2 : Int) - (v1 : Int)) % 256 - 1) := by
  unfold ovf_sub
  constructor <;> intro h <;> split <;> omega

/-- Witness for C3 amended at 3, 200 and 200, 3. -/
theorem ovf_sub_amended_witness :
    ((ovf_sub 3 200 : Int) = ((200 : Int) - (3 : Int)) % 256) ∧
    ((ovf_sub 200 3 : Int) = ((3 : Int) - (200 : Int)) % 256 - 1) :=
  ⟨(ovf_sub_amended 3 200 (by decide) (by decide)).1 (by decide),
   (ovf_sub_amended 200 3 (by decide) (by decide)).2 (by decide)⟩

/-- C4 counterexample: the guarded increment maps 254 to 255, so 255 is
produced by the increment (a slot holding 254 in its high phase reaches
255 on the next tick at level 1). -/
theorem sampler_saturation_counterexample :
    phaseInc 254 = 255 ∧
    (samplerTick ⟨fun _ => (0, 254), 0, true⟩ true).pulse 0 = (0, 255) := by
  constructor
  · decide
  · rfl

/-- C4 amended: the per-tick increment saturates at 255, not 254: values
stay at most 255, the result is 255 exactly when the old value was 254 or
255, and on a non-rising tick at level 1 the current slot becomes its old
value with the high phase incremented by `phaseInc`. -/
theorem sampler_saturation_amended :
    (∀ v, v ≤ 255 → (phaseInc v ≤ 255 ∧ (phaseInc v = 255 ↔ 254 ≤ v))) ∧
    (∀ s : SamplerState, s.bit = true →
      (samplerTick s true).pulse (s.current % 256) =
        ((s.pulse (s.current % 256)).1,
          phaseInc (s.pulse (s.current % 256)).2)) := by
  constructor
  · intro v hv
    unfold phaseInc MAX_TICKS_PER_PHASE
    constructor
    · split <;> omega
    · split <;> omega
  · intro s hs
    simp [samplerTick, hs]

/-- Witness for C4 amended at value 10 and a concrete sampler state. -/
theorem sampler_saturation_amended_witness :
    (phaseInc 10 ≤ 255 ∧ (phaseInc 10 = 255 ↔ 254 ≤ 10)) ∧
    (samplerTick ⟨fun _ => (3, 4), 5, true⟩ true).pulse (5 % 256) =
      (3, phaseInc 4) :=
  ⟨sampler_saturation_amended.1 10 (by decide),
   sampler_saturation_amended.2 ⟨fun _ => (3, 4), 5, true⟩ rfl⟩

set_option maxRecDepth 4096 in
theorem xcvrStep_preserves (s : XcvrState) (op : XcvrOp)
    (h : s.timsk0 < 256 ∧ atMostOneCompare s.timsk0) :
    (xcvrStep s op).timsk0 < 256 ∧ atMostOneCompare (xcvrStep s op).timsk0 := by
  have hd : ∀ t : Nat, t < 256 →
      ((t &&& (255 ^^^ timer_mask)) ||| (1 <<< OCIE0A)) < 256 ∧
      atMostOneCompare ((t &&& (255 ^^^ timer_mask)) ||| (1 <<< OCIE0A)) ∧
      ((t &&& (255 ^^^ timer_mask)) ||| (1 <<< OCIE0B)) < 256 ∧
      atMostOneCompare ((t &&& (255 ^^^ timer_mask)) ||| (1 <<< OCIE0B)) ∧
      (t &&& (255 ^^^ timer_mask)) < 256 ∧
      atMostOneCompare (t &&& (255 ^^^ timer_mask)) := by
    decide
  cases op with
  | recv =>
    simp only [xcvrStep, enable_receiver]
    split
    · exact h
    · exact ⟨(hd s.timsk0 h.1).1, (hd s.timsk0 h.1).2.1⟩
  | xmit =>
    simp only [xcvrStep, enable_transmitter]
    split
    · exact h
    · exact ⟨(hd s.timsk0 h.1).2.2.1, (hd s.timsk0 h.1).2.2.2.1⟩
  | off =>
    simp only [xcvrStep, disable_transceiver]
    exact ⟨(hd s.timsk0 h.1).2.2.2.2.1, (hd s.timsk0 h.1).2.2.2.2.2⟩

/-- C8: starting from reset, after any sequence of `enable_receiver`,
`enable_transmitter` and `disable_transceiver` transitions, at most one
of the two timer compare interrupt enable bits (OCIE0A for receive,
OCIE0B for transmit) is set. -/
theorem half_duplex_exclusive (ops : List XcvrOp) :
    atMostOneCompare (xcvrRun ops).timsk0 := by
  have main : ∀ (l : List XcvrOp) (s : XcvrState),
      s.timsk0 < 256 ∧ atMostOneCompare s.timsk0 →
      (List.foldl xcvrStep s l).timsk0 < 256 ∧
        atMostOneCompare (List.foldl xcvrStep s l).timsk0 := by
    intro l
    induction l with
    | nil => intro s h; exact h
    | cons a l ih => intro s h; exact ih _ (xcvrStep_preserves s a h)
  exact (main ops xcvrReset ⟨by decide, by decide⟩).2

/-- C2 counterexample: from the cleared sync state, exactly 8 uniform ASK
cycles `(64, 16)` (duration 0x50) leave `synclen` at 7, because the first
cycle only seeds `syncduration`; no decoder is chosen, contradicting the
claim that the searcher chooses ASK after exactly 8 cycles. -/
theorem sync_eight_cycles_no_choice :
    syncOutcome false (runSync syncInit 0 (List.replicate 8 (64, 16))) = none ∧
    (runSync syncInit 0 (List.replicate 8 (64, 16))).synclen = 7 := by
  decide

/-- C2 amended: at 8 accepted pulses with raw display off the searcher
picks OOK when `syncduration > 0x80`, else Manchester when
`manchester > 4`, else ASK; the concrete scenarios need one seeding cycle
before the 8 uniform cycles (8 cycles alone only reach `synclen = 7`). -/
theorem sync_classification_amended :
    (∀ sd man : Nat,
      (0x80 < sd → chooseNewstate false ⟨0, sd, 8, man⟩ = .Decoding_OOK) ∧
      (sd ≤ 0x80 → 4 < man →
        chooseNewstate false ⟨0, sd, 8, man⟩ = .Decoding_Manchester) ∧
      (sd ≤ 0x80 → man ≤ 4 →
        chooseNewstate false ⟨0, sd, 8, man⟩ = .Decoding_ASK)) ∧
    syncOutcome false (runSync syncInit 0 ((64, 16) :: List.replicate 8 (64, 16)))
      = some .Decoding_ASK ∧
    syncOutcome false (runSync syncInit 0
        ((40, 40) :: (List.replicate 5 (40, 40) ++ List.replicate 3 (64, 16))))
      = some .Decoding_Manchester ∧
    syncOutcome false (runSync syncInit 0 (List.replicate 9 (72, 72)))
      = some .Decoding_OOK ∧
    syncOutcome false (runSync syncInit 0 (List.replicate 8 (64, 16))) = none := by
  refine ⟨fun sd man => ⟨?_, ?_, ?_⟩, by decide, by decide, by decide, by decide⟩
  · intro h
    simp [chooseNewstate, h]
  · intro h1 h2
    simp [chooseNewstate, Nat.not_lt.mpr h1, h2]
  · intro h1 h2
    simp [chooseNewstate, Nat.not_lt.mpr h1, Nat.not_lt.mpr h2]

/-- Witness for C2 amended: each selection branch at concrete sync
states. -/
theorem sync_classification_amended_witness :
    chooseNewstate false ⟨0, 0x90, 8, 0⟩ = .Decoding_OOK ∧
    chooseNewstate false ⟨0, 0x50, 8, 5⟩ = .Decoding_Manchester ∧
    chooseNewstate false ⟨0, 0x50, 8, 0⟩ = .Decoding_ASK :=
  ⟨(sync_classification_amended.1 0x90 0).1 (by decide),
   (sync_classification_amended.1 0x50 5).2.1 (by decide) (by decide),
   (sync_classification_amended.1 0x50 0).2.2 (by decide) (by decide)⟩

/-- C5 counterexample: the inbound line `MA!30:40553300#20*66` has a
checksum claim 0x66 that differs from the accumulated 0x6d; the firmware
replies with the bytes `!42\n` (`printf("!%d\n", err)` with err set to
the character `*` = 42), not with the line `!*\n`, and no transmit
happens. -/
theorem cmd_checksum_reject_counterexample :
    (receiveCmd 0 [77, 65, 33, 51, 48, 58, 52, 48, 53, 53, 51, 51, 48, 48,
      35, 50, 48, 42, 54, 54, 10]).out = [33, 52, 50, 10] ∧
    (receiveCmd 0 [77, 65, 33, 51, 48, 58, 52, 48, 53, 53, 51, 51, 48, 48,
      35, 50, 48, 42, 54, 54, 10]).tx = [] ∧
    [33, 52, 50, 10] ≠ [33, 42, 10] := by
  decide

set_option maxRecDepth 100000 in
/-- C5 amended: on a checksum mismatch the firmware emits `!42\n` (the
`!` followed by the decimal character code of `*`), discards the line,
triggers no transmit and re-enables the receiver; shown for every
claimed checksum byte different from the accumulated 0x55 on a bare `MA*`
command. -/
theorem cmd_checksum_reject_amended :
    ∀ c : Nat, c < 256 → c ≠ 0x55 →
      (receiveCmd 0 ([77, 65, 42] ++ hex2 c ++ [10])).out = [33, 52, 50, 10] ∧
      (receiveCmd 0 ([77, 65, 42] ++ hex2 c ++ [10])).tx = [] ∧
      (receiveCmd 0 ([77, 65, 42] ++ hex2 c ++ [10])).receiverOn = true := by
  decide

/-- Witness for C5 amended at claimed checksum 0x66. -/
theorem cmd_checksum_reject_amended_witness :
    (receiveCmd 0 ([77, 65, 42] ++ hex2 0x66 ++ [10])).out = [33, 52, 50, 10] ∧
    (receiveCmd 0 ([77, 65, 42] ++ hex2 0x66 ++ [10])).tx = [] ∧
    (receiveCmd 0 ([77, 65, 42] ++ hex2 0x66 ++ [10])).receiverOn = true :=
  cmd_checksum_reject_amended 0x66 (by decide) (by decide)

/-- C6 counterexample: the checksum-valid command `MA#10*65` declares
bit_count 0x10; the parser replies `*OK`, but `transmit_message` computes
`msg_end = 0x11 > 16` and the transmit IS attempted, contradicting the
claim. -/
theorem short_transmit_counterexample :
    (receiveCmd 0 [77, 65, 35, 49, 48, 42, 54, 53, 10]).out =
      [42, 79, 75, 10] ∧
    (receiveCmd 0 [77, 65, 35, 49, 48, 42, 54, 53, 10]).tx =
      [⟨16, 17, 0, true⟩] := by
  decide

set_option maxRecDepth 100000 in
/-- C6 amended: the skip `msg_end ≤ 16` with `msg_end = bit_count + 1`
fires for declared bit_count at most 0x0f (not 0x10): every
checksum-valid `MA#<bc>*<chk>` command with `bc ≤ 0x0f` replies `*OK` and
skips the transmit, while bit_count 0x10 yields `msg_end = 0x11` and an
attempted transmit. -/
theorem short_transmit_amended :
    (∀ bc : Nat, bc ≤ 0x0f →
      (receiveCmd 0 ([77, 65, 35] ++ hex2 bc ++ [42] ++
        hex2 ((0x55 + bc) % 256) ++ [10])).out = [42, 79, 75, 10] ∧
      (receiveCmd 0 ([77, 65, 35] ++ hex2 bc ++ [42] ++
        hex2 ((0x55 + bc) % 256) ++ [10])).tx = [transmit_message bc] ∧
      (transmit_message bc).attempted = false) ∧
    (transmit_message 0x10).msgEnd = 0x11 ∧
    (transmit_message 0x10).attempted = true := by
  refine ⟨?_, by decide, by decide⟩
  decide

/-- Witness for C6 amended at declared bit_count 5. -/
theorem short_transmit_amended_witness :
    (receiveCmd 0 ([77, 65, 35] ++ hex2 5 ++ [42] ++
      hex2 ((0x55 + 5) % 256) ++ [10])).out = [42, 79, 75, 10] ∧
    (receiveCmd 0 ([77, 65, 35] ++ hex2 5 ++ [42] ++
      hex2 ((0x55 + 5) % 256) ++ [10])).tx = [transmit_message 5] ∧
    (transmit_message 5).attempted = false :=
  short_transmit_amended.1 5 (by decide)

/-- C7: the trailer prints `sync_duration` with `%0x` (no field width),
so at `sync_duration = 0x0e` the `!` field is the single digit `e`; such
a value is reached by the sync searcher itself (pulses `(70,70)` eight
times then `(200,200)` drive the adaptive update across the uint8_t wrap
to 14 with `synclen = 8`), and the resulting trailer differs from the
two-digit-per-field format the spec requires. -/
theorem trailer_pad_slip :
    (runSync syncInit 0 (List.replicate 8 (70, 70) ++ [(200, 200)])).syncduration
      = 14 ∧
    (runSync syncInit 0 (List.replicate 8 (70, 70) ++ [(200, 200)])).synclen
      = 8 ∧
    hexNoPad 14 = [101] ∧
    (hexNoPad 14).length ≠ 2 ∧
    decodeDoneOutput 32 14 200 = [35, 50, 48, 33, 101, 42, 102, 54, 10] ∧
    decodeDoneOutput 32 14 200 ≠
      [35] ++ hex2 32 ++ [33] ++ hex2 14 ++ [42] ++ hex2 246 ++ [10] := by
  decide

/-- C9 counterexample: the line `MA#1F*74` contains the hex pair `1F`;
parsing fails at the `F` but the firmware emits nothing at all (the `#`
argument path discards the line silently), while the lowercase variant
`MA#1f*74` parses successfully — so the failure does not always come with
an error reply. -/
theorem hexF_counterexample :
    (receiveCmd 0 [77, 65, 35, 49, 70, 42, 55, 52, 10]).out = [] ∧
    (receiveCmd 0 [77, 65, 35, 49, 70, 42, 55, 52, 10]).tx = [] ∧
    (receiveCmd 0 [77, 65, 35, 49, 102, 42, 55, 52, 10]).out =
      [42, 79, 75, 10] := by
  decide

set_option maxRecDepth 100000 in
/-- C9 amended: the hex reader accepts `0`-`9`, `a`-`f` and `A`-`E` and
rejects `F`; a rejected `F` inside a `:` payload produces the error reply
`!70\n` and the lowercase variant parses to `*OK`, but an `F` in a `#`,
`!` or `*` argument silently discards the line with no reply. -/
theorem hex_reader_amended :
    decodeHexChar 70 = none ∧
    decodeHexChar 69 = some 14 ∧
    decodeHexChar 102 = some 15 ∧
    (∀ c : Nat, c < 256 → (decodeHexChar c ≠ none ↔
      ((48 ≤ c ∧ c ≤ 57) ∨ (97 ≤ c ∧ c ≤ 102) ∨ (65 ≤ c ∧ c ≤ 69)))) ∧
    (receiveCmd 0 [77, 65, 58, 52, 70, 35, 48, 56, 42, 97, 99, 10]).out =
      [33, 55, 48, 10] ∧
    (receiveCmd 0 [77, 65, 58, 52, 102, 35, 48, 56, 42, 97, 99, 10]).out =
      [42, 79, 75, 10] ∧
    (receiveCmd 0 [77, 65, 35, 49, 70, 42, 55, 52, 10]).out = [] := by
  refine ⟨by decide, by decide, by decide, ?_, by decide, by decide, by decide⟩
  decide

/-- Witness for C9 amended: the acceptance characterisation at the
character `F` (code 70). -/
theorem hex_reader_amended_witness :
    decodeHexChar 70 ≠ none ↔
      ((48 ≤ 70 ∧ 70 ≤ 57) ∨ (97 ≤ 70 ∧ 70 ≤ 102) ∨ (65 ≤ 70 ∧ 70 ≤ 69)) :=
  hex_reader_amended.2.2.2.1 70 (by decide)

set_option maxRecDepth 100000 in
/-- C10: a checksum-valid `MA#ff*54` command declares bit_count 0xff; the
transmit trigger computes `msg_end = (0xff + 1) mod 256 = 0 ≤ 16` and
silently skips, and for every bit_count an attempted transmit has
`msg_end ≠ msg_start`, so no inbound command transmits a full 256-slot
message. -/
theorem full_message_transmit_blocked :
    ((receiveCmd 0 [77, 65, 35, 102, 102, 42, 53, 52, 10]).out =
      [42, 79, 75, 10] ∧
    (receiveCmd 0 [77, 65, 35, 102, 102, 42, 53, 52, 10]).tx =
      [⟨255, 0, 0, false⟩] ∧
    (transmit_message 0xff).msgEnd = 0 ∧
    (transmit_message 0xff).attempted = false) ∧
    (∀ bc : Nat, bc < 256 → (transmit_message bc).attempted = true →
      (transmit_message bc).msgEnd ≠ (transmit_message bc).msgStart) := by
  refine ⟨by decide, ?_⟩
  decide

/-- Witness for C10 at bit_count 32. -/
theorem full_message_transmit_blocked_witness :
    (transmit_message 32).msgEnd ≠ (transmit_message 32).msgStart :=
  full_message_transmit_blocked.2 32 (by decide) (by decide)

end RfBridge
